import Mathlib

/-
Verification of the recursive-redshift FRI verifier gadget
(src/circuit/recursive_redshift/fri_verifier.rs) via a shallow embedding.

Modelling conventions:
* Circuit field values (`AllocatedNum<E>` / `Num<E>`) are values of a
  commutative ring `F` with decidable equality; `Boolean` circuit values are
  `Bool`.  Constraint-system plumbing (namespaces, variable allocation) has
  no effect on the values computed and is erased.
* A Rust `Result<_, SynthesisError>` together with the possibility of a
  runtime panic (failed `assert!`, out-of-bounds slice or index) is embedded
  as `RResult`: `ok`, `err`, or `panicked`.
* The oracle gadget `I: OracleGadget<E>` is abstracted by its commitment
  type `C`, proof type `P`, and a validation function
  `validate : log_domain_size → values → coset_idx → commitment → proof → Bool`
  (per the interface contract the oracle check returns a circuit boolean).
* `FriUtilsGadget` (fri_utils.rs, not part of the sources under review) is
  split into the domain-size tracking state, modelled from the spec
  (log-size shrinks by `collapsing_factor` at each `next_domain`), and a
  record `FriUtilsFns` of abstract value-level functions (coset index /
  offset derivation, combiner evaluation points, coset interpolation,
  in-coset selection, bottom-layer generator), each taking the current
  domain state.
* Natural indices are bit lists, least-significant bit first; a Rust
  sub-slice `&bits[a..b]` is `rustSlice`, which panics out of range.
-/

namespace Redshift

inductive SynthesisError where
  | Unknown : SynthesisError
  | DivisionByZero : SynthesisError
deriving DecidableEq, Repr

/-- Result of running a piece of Rust code: a value, a `SynthesisError`
propagated with `?`, or a runtime panic (failed assertion / out-of-bounds
slice or index). -/
inductive RResult (α : Type) where
  | ok : α → RResult α
  | err : SynthesisError → RResult α
  | panicked : RResult α
deriving DecidableEq, Repr

def RResult.bind {α β : Type} : RResult α → (α → RResult β) → RResult β
  | .ok a, f => f a
  | .err e, _ => .err e
  | .panicked, _ => .panicked

def RResult.map {α β : Type} (f : α → β) : RResult α → RResult β
  | .ok a => .ok (f a)
  | .err e => .err e
  | .panicked => .panicked

/-- Rust slice indexing `l[i]`: panics when out of bounds. -/
def rustIndex {α : Type} (l : List α) (i : Nat) : RResult α :=
  match l.get? i with
  | some a => .ok a
  | none => .panicked

/-- Rust range sub-slicing `&l[a..b]`: panics when the range is invalid. -/
def rustSlice {α : Type} (l : List α) (a b : Nat) : RResult (List α) :=
  if a ≤ b ∧ b ≤ l.length then .ok ((l.drop a).take (b - a)) else .panicked

/-- Rust `slice::chunks n` (with positive `n`), fuel-based so that it
reduces definitionally. -/
def chunksOfAux {α : Type} (n : Nat) : Nat → List α → List (List α)
  | _, [] => []
  | 0, _ :: _ => []
  | fuel + 1, a :: t => (a :: t).take n :: chunksOfAux n fuel ((a :: t).drop n)

def chunksOf {α : Type} (n : Nat) (l : List α) : List (List α) :=
  chunksOfAux n l.length l

/-- Value of a least-significant-bit-first bit list. -/
def bitsToNat : List Bool → Nat
  | [] => 0
  | b :: t => (cond b 1 0) + 2 * bitsToNat t

/-- `pub struct Labeled<T> { label, data }` (fri_verifier.rs, lines 37-40);
`Label = &'static str` becomes `String`. -/
structure Labeled (T : Type) where
  label : String
  data : T
deriving DecidableEq, Repr

/-- A query: opened coset values plus the oracle opening proof
(`Query<E, I>` of the oracle interface). -/
structure Query (F P : Type) where
  values : List F
  proof : P
deriving DecidableEq, Repr

/-- Modelled from the spec: the domain state tracked by `FriUtilsGadget`
(fri_utils.rs is outside the reviewed sources).  Per the spec the Domain
Utility tracks the current domain size as a log2 and
`advance_to_next_domain` shrinks it by the collapsing factor. -/
structure DomainState where
  log_domain_size : Nat
deriving DecidableEq, Repr

/-- Modelled from the spec: `FriUtilsGadget::next_domain` shrinks the
tracked log-domain-size by the collapsing factor. -/
def DomainState.next (d : DomainState) (collapsing_factor : Nat) : DomainState :=
  ⟨d.log_domain_size - collapsing_factor⟩

/-- The value-level behaviour of the remaining `FriUtilsGadget` operations
(fri_utils.rs is outside the reviewed sources), kept abstract: each
operation may depend on the current domain state and on its arguments. -/
structure FriUtilsFns (F : Type) where
  getCosetIdx : DomainState → List Bool → List Bool
  getCosetOffset : DomainState → List Bool → List Bool
  getCombinerEvalPoints : DomainState → List Bool → List F
  cosetInterp : DomainState → List F → List Bool → List F → F
  chooseElement : DomainState → List F → List Bool → F
  bottomOmega : DomainState → F

section VerifierDefs

variable {F C P : Type} [CommRing F] [DecidableEq F]

/-- One iteration of the upper-layer loop (fri_verifier.rs, lines 83-98):
look up the commitment whose label equals the query's label via
`iter().position(..)` (`SynthesisError::Unknown` when absent), index it,
and run the oracle check on the query's values at the initial coset index. -/
def upperStep (validate : Nat → List F → List Bool → C → P → Bool)
    (log_domain_size : Nat) (coset_idx : List Bool)
    (upper_layer_commitments : List (Labeled C))
    (q : Labeled (Query F P)) : RResult Bool :=
  match upper_layer_commitments.findIdx? (fun x => x.label == q.label) with
  | none => .err .Unknown
  | some i =>
    match upper_layer_commitments.get? i with
    | none => .panicked
    | some cm => .ok (validate log_domain_size q.data.values coset_idx cm.data q.data.proof)

/-- The upper-layer loop (fri_verifier.rs, lines 81-98): starting from
`Boolean::Constant(true)`, AND each query's oracle check into the
accumulated validity flag. -/
def upperPhase (validate : Nat → List F → List Bool → C → P → Bool)
    (log_domain_size : Nat) (coset_idx : List Bool)
    (upper_layer_commitments : List (Labeled C)) :
    List (Labeled (Query F P)) → Bool → RResult Bool
  | [], acc => .ok acc
  | q :: rest, acc =>
    RResult.bind (upperStep validate log_domain_size coset_idx upper_layer_commitments q)
      (fun b => upperPhase validate log_domain_size coset_idx upper_layer_commitments rest (acc && b))

/-- Gather, for coset position `i`, the value of each upper-layer query at
index `i` with its label (fri_verifier.rs, lines 123-125). -/
def gatherValuesAt : List (Labeled (Query F P)) → Nat → RResult (List (Labeled F))
  | [], _ => .ok []
  | q :: rest, i =>
    RResult.bind (rustIndex q.data.values i)
      (fun v => RResult.map (fun l => ⟨q.label, v⟩ :: l) (gatherValuesAt rest i))

/-- The combiner loop (fri_verifier.rs, lines 121-133): for each coset
position, the labelled upper-layer values plus the `"ev_p"`-labelled
evaluation point are passed to the caller-supplied combiner. -/
def combinerLoop (upper_layer_combiner : List (Labeled F) → RResult F)
    (upper_layer_queries : List (Labeled (Query F P)))
    (evaluation_points : List F) : List Nat → RResult (List F)
  | [] => .ok []
  | i :: rest =>
    RResult.bind (gatherValuesAt upper_layer_queries i)
      (fun args =>
        RResult.bind (rustIndex evaluation_points i)
          (fun e =>
            RResult.bind (upper_layer_combiner (args ++ [⟨"ev_p", e⟩]))
              (fun v => RResult.map (fun l => v :: l)
                (combinerLoop upper_layer_combiner upper_layer_queries evaluation_points rest))))

/-- The state threaded through the per-layer loop: the domain tracker, the
remaining natural index bits, and `previous_layer_element`. -/
structure LayerState (F : Type) where
  d : DomainState
  natIdx : List Bool
  prev : F
deriving DecidableEq, Repr

/-- One iteration of the per-layer loop (fri_verifier.rs, lines 142-187).
`next_domain`; re-slice the natural index to
`[collapsing_factor .. get_log_domain_size()]`; recompute coset index and
offset; oracle-check the layer's query; compare `previous_layer_element`
against the element selected from the opened coset by offset (the round
consistency check); finally recompute the interpolant.  NOTE: the source
passes the whole `fri_challenges` slice to `coset_interpolation_value`
(line 185); the chunk bound in the loop header (line 143) is destructured
into `challenges` but never used, which this embedding reproduces
faithfully (`_chunk`). -/
def layerStep (U : FriUtilsFns F) (validate : Nat → List F → List Bool → C → P → Bool)
    (collapsing_factor : Nat) (fri_challenges : List F)
    (st : LayerState F) (query : Query F P) (commitment : C) (_chunk : List F) :
    RResult (LayerState F × Bool × Bool) :=
  let d := st.d.next collapsing_factor
  RResult.bind (rustSlice st.natIdx collapsing_factor d.log_domain_size)
    (fun natIdx =>
      let coset_idx := U.getCosetIdx d natIdx
      let offset := U.getCosetOffset d natIdx
      let oracle_check := validate d.log_domain_size query.values coset_idx commitment query.proof
      let cur_layer_element := U.chooseElement d query.values offset
      let rcc_flag := decide (st.prev = cur_layer_element)
      let prev := U.cosetInterp d query.values coset_idx fri_challenges
      .ok (⟨d, natIdx, prev⟩, oracle_check, rcc_flag))

/-- The per-layer loop (fri_verifier.rs, lines 142-187) accumulating the
validity flag: `final_result := (final_result && oracle_check) && rcc_flag`
at each layer. -/
def layerLoop (U : FriUtilsFns F) (validate : Nat → List F → List Bool → C → P → Bool)
    (collapsing_factor : Nat) (fri_challenges : List F) :
    List ((Query F P × C) × List F) → LayerState F → Bool → RResult (LayerState F × Bool)
  | [], st, acc => .ok (st, acc)
  | ((query, commitment), chunk) :: rest, st, acc =>
    RResult.bind (layerStep U validate collapsing_factor fri_challenges st query commitment chunk)
      (fun r => layerLoop U validate collapsing_factor fri_challenges rest r.1
        ((acc && r.2.1) && r.2.2))

/-- Everything up to and including the per-layer loop
(fri_verifier.rs, lines 75-187): initial coset index, upper-layer oracle
checks, combiner application over the coset, the first interpolant from the
first `coset_size` challenges, then the zip of `queries`, `commitments` and
`fri_challenges.chunks(coset_size).skip(1)` driving the layer loop.
Returns the layer state and the accumulated validity flag. -/
def afterLayers (U : FriUtilsFns F) (validate : Nat → List F → List Bool → C → P → Bool)
    (upper_layer_queries : List (Labeled (Query F P)))
    (upper_layer_commitments : List (Labeled C))
    (upper_layer_combiner : List (Labeled F) → RResult F)
    (fri_helper : DomainState)
    (queries : List (Query F P)) (commitments : List C)
    (natural_first_element_index : List Bool)
    (fri_challenges : List F)
    (collapsing_factor : Nat) : RResult (LayerState F × Bool) :=
  let coset_idx := U.getCosetIdx fri_helper natural_first_element_index
  let coset_size := 2 ^ collapsing_factor
  RResult.bind (upperPhase validate fri_helper.log_domain_size coset_idx
      upper_layer_commitments upper_layer_queries true)
    (fun final_result =>
      let evaluation_points := U.getCombinerEvalPoints fri_helper coset_idx
      RResult.bind (combinerLoop upper_layer_combiner upper_layer_queries
          evaluation_points (List.range coset_size))
        (fun values =>
          RResult.bind (rustSlice fri_challenges 0 coset_size)
            (fun ch0 =>
              let previous_layer_element :=
                U.cosetInterp fri_helper values coset_idx ch0
              let triples := (queries.zip commitments).zip
                ((chunksOf coset_size fri_challenges).drop 1)
              layerLoop U validate collapsing_factor fri_challenges triples
                ⟨fri_helper, natural_first_element_index, previous_layer_element⟩
                final_result)))

/-- The accumulation loop over `final_coefficients` (fri_verifier.rs,
lines 208-216): `term = t * c; t = t * ev_p; running_sum += term`. -/
def sumLoop : List F → F → F → F → F
  | [], _, _, acc => acc
  | c :: rest, t, ev_p, acc => sumLoop rest (t * ev_p) ev_p (acc + t * c)

/-- The final-polynomial value (fri_verifier.rs, lines 192-219):
`assert!(final_coefficients.len() > 0)`; a single coefficient is used
directly; otherwise `next_domain` once more, re-slice the natural index,
take `ev_p = bottom_layer_omega ^ natural_index` and accumulate the
polynomial value.  Returns the (possibly advanced) domain state, the
remaining natural index and the expected value. -/
def finalValue (U : FriUtilsFns F) (collapsing_factor : Nat)
    (d : DomainState) (natIdx : List Bool) (final_coefficients : List F) :
    RResult (DomainState × List Bool × F) :=
  if final_coefficients.length = 0 then .panicked
  else if final_coefficients.length = 1 then
    RResult.map (fun v => (d, natIdx, v)) (rustIndex final_coefficients 0)
  else
    let d1 := d.next collapsing_factor
    RResult.bind (rustSlice natIdx collapsing_factor d1.log_domain_size)
      (fun nat1 =>
        let omega := U.bottomOmega d1
        let ev_p := omega ^ bitsToNat nat1
        RResult.bind (rustIndex final_coefficients 0)
          (fun c0 =>
            .ok (d1, nat1, sumLoop (final_coefficients.drop 1) ev_p ev_p c0)))

/-- Horner-style evaluation of a coefficient list at a point
(the specification-side reading of the final-polynomial evaluation). -/
def polyEval : List F → F → F
  | [], _ => 0
  | c :: rest, x => c + x * polyEval rest x

/-- `FriVerifierGadget::verify_single_proof_round`
(fri_verifier.rs, lines 52-229): upper-layer oracle checks, combiner,
first interpolant, layer loop, then the final consistency check ANDed into
the validity flag.  `initial_domain_size` is an argument of the source
function that its body never reads. -/
def verify_single_proof_round (U : FriUtilsFns F)
    (upper_layer_queries : List (Labeled (Query F P)))
    (upper_layer_commitments : List (Labeled C))
    (upper_layer_combiner : List (Labeled F) → RResult F)
    (fri_helper : DomainState)
    (queries : List (Query F P)) (commitments : List C)
    (final_coefficients : List F)
    (natural_first_element_index : List Bool)
    (fri_challenges : List F)
    (initial_domain_size : Nat) (collapsing_factor : Nat)
    (validate : Nat → List F → List Bool → C → P → Bool) : RResult Bool :=
  RResult.bind (afterLayers U validate upper_layer_queries upper_layer_commitments
      upper_layer_combiner fri_helper queries commitments
      natural_first_element_index fri_challenges collapsing_factor)
    (fun r =>
      RResult.bind (finalValue U collapsing_factor r.1.d r.1.natIdx final_coefficients)
        (fun v =>
          let flag := decide (r.1.prev = v.2.2)
          .ok (r.2 && flag)))

/-- Specification-side view of the upper-layer loop: the list of the
individual oracle-check booleans, one per upper-layer query. -/
def upperFlags (validate : Nat → List F → List Bool → C → P → Bool)
    (log_domain_size : Nat) (coset_idx : List Bool)
    (upper_layer_commitments : List (Labeled C)) :
    List (Labeled (Query F P)) → RResult (List Bool)
  | [] => .ok []
  | q :: rest =>
    RResult.bind (upperStep validate log_domain_size coset_idx upper_layer_commitments q)
      (fun b => RResult.map (fun l => b :: l)
        (upperFlags validate log_domain_size coset_idx upper_layer_commitments rest))

/-- Specification-side view of the per-layer loop: the final layer state
together with the list of per-layer (oracle-check, round-consistency-check)
boolean pairs. -/
def layerScan (U : FriUtilsFns F) (validate : Nat → List F → List Bool → C → P → Bool)
    (collapsing_factor : Nat) (fri_challenges : List F) :
    List ((Query F P × C) × List F) → LayerState F → RResult (LayerState F × List (Bool × Bool))
  | [], st => .ok (st, [])
  | ((query, commitment), chunk) :: rest, st =>
    RResult.bind (layerStep U validate collapsing_factor fri_challenges st query commitment chunk)
      (fun r => RResult.map (fun p => (p.1, r.2 :: p.2))
        (layerScan U validate collapsing_factor fri_challenges rest r.1))

/-- The successive layer states of the per-layer loop (used to express the
per-layer folded values). -/
def layerStates (U : FriUtilsFns F) (validate : Nat → List F → List Bool → C → P → Bool)
    (collapsing_factor : Nat) (fri_challenges : List F) :
    List ((Query F P × C) × List F) → LayerState F → RResult (List (LayerState F))
  | [], _ => .ok []
  | ((query, commitment), chunk) :: rest, st =>
    RResult.bind (layerStep U validate collapsing_factor fri_challenges st query commitment chunk)
      (fun r => RResult.map (fun l => r.1 :: l)
        (layerStates U validate collapsing_factor fri_challenges rest r.1))

/-- The trace of folded values computed by a single proof round: the first
interpolant (from the combined upper-layer values) followed by each layer's
recomputed interpolant, in order. -/
def foldTrace (U : FriUtilsFns F)
    (upper_layer_queries : List (Labeled (Query F P)))
    (upper_layer_combiner : List (Labeled F) → RResult F)
    (fri_helper : DomainState)
    (queries : List (Query F P)) (commitments : List C)
    (natural_first_element_index : List Bool)
    (fri_challenges : List F)
    (collapsing_factor : Nat)
    (validate : Nat → List F → List Bool → C → P → Bool) : RResult (List F) :=
  let coset_idx := U.getCosetIdx fri_helper natural_first_element_index
  let coset_size := 2 ^ collapsing_factor
  let evaluation_points := U.getCombinerEvalPoints fri_helper coset_idx
  RResult.bind (combinerLoop upper_layer_combiner upper_layer_queries
      evaluation_points (List.range coset_size))
    (fun values =>
      RResult.bind (rustSlice fri_challenges 0 coset_size)
        (fun ch0 =>
          let previous_layer_element := U.cosetInterp fri_helper values coset_idx ch0
          let triples := (queries.zip commitments).zip
            ((chunksOf coset_size fri_challenges).drop 1)
          RResult.map (fun l => previous_layer_element :: l.map LayerState.prev)
            (layerStates U validate collapsing_factor fri_challenges triples
              ⟨fri_helper, natural_first_element_index, previous_layer_element⟩)))

/-- `pub struct FriVerifierGadget` parameters (fri_verifier.rs, lines 21-32). -/
structure FriVerifierGadget where
  collapsing_factor : Nat
  num_query_rounds : Nat
  initial_degree_plus_one : Nat
  lde_factor : Nat
  final_degree_plus_one : Nat
deriving DecidableEq, Repr

/-- `pub struct FriSingleQueryRoundData` (fri_verifier.rs, lines 42-47);
the natural index, consumed as circuit bits by the single-round algorithm,
is held as a least-significant-bit-first bit list. -/
structure FriSingleQueryRoundData (F C P : Type) where
  upper_layer_queries : List (Labeled (Query F P))
  queries : List (Query F P)
  natural_first_element_index : List Bool
deriving DecidableEq, Repr

/-- `FriVerifierGadget::verify_proof` (fri_verifier.rs, lines 232-309),
embedded as found.  The function takes no `self`, so the configured
`FriVerifierGadget` parameters are not even accessible to it; its active
body only initialises `final_result = Boolean::Constant(true)` and returns
`Ok(final_result)` — the count checks and the multi-round loop exist solely
inside a commented-out sketch, and the one other live statement
(`let unpacked_fri_challenges : AllocatedNum<E> = Vec::with_capacity(..)`,
line 249) is an unfinished fragment that does not contribute a value.  No
input is inspected. -/
def verify_proof (upper_layer_combiner : List (Labeled F) → RResult F)
    (upper_layer_commitments : List (Labeled C))
    (commitments : List C) (final_coefficients : List F)
    (fri_challenges : List F)
    (query_rounds_data : List (FriSingleQueryRoundData F C P))
    (validate : Nat → List F → List Bool → C → P → Bool) : RResult Bool :=
  .ok true

end VerifierDefs

/-- A concrete instantiation (over `ℤ`, commitments and proofs being plain
numbers resp. `Unit`) of the abstract `FriUtilsGadget` value functions,
used to evaluate the verifier on explicit inputs.  The interpolation
returns the number of challenges handed to it, which makes the challenge
slice reaching `coset_interpolation_value` directly observable. -/
def intUtils : FriUtilsFns ℤ where
  getCosetIdx := fun _ l => l
  getCosetOffset := fun _ l => l
  getCombinerEvalPoints := fun _ _ => [0, 0]
  cosetInterp := fun _ _ _ ch => (ch.length : ℤ)
  chooseElement := fun _ vals _ => vals.headD 0
  bottomOmega := fun _ => 2

/-- A concrete combiner summing all labelled values (including the
evaluation point). -/
def sumCombiner : List (Labeled ℤ) → RResult ℤ :=
  fun args => .ok (args.foldr (fun x a => x.data + a) 0)

/-- A concrete oracle validation accepting every opening. -/
def acceptAllOracle : Nat → List ℤ → List Bool → Nat → Unit → Bool :=
  fun _ _ _ _ _ => true

section HelperLemmas

variable {F C P : Type} [CommRing F] [DecidableEq F]

theorem upperStep_eq_find (validate : Nat → List F → List Bool → C → P → Bool)
    (log_domain_size : Nat) (coset_idx : List Bool)
    (cms : List (Labeled C)) (q : Labeled (Query F P)) :
    upperStep validate log_domain_size coset_idx cms q =
      match cms.find? (fun x => x.label == q.label) with
      | none => .err .Unknown
      | some cm => .ok (validate log_domain_size q.data.values coset_idx cm.data q.data.proof) := by
  unfold upperStep
  induction cms with
  | nil => rfl
  | cons a t ih =>
    rw [List.findIdx?_cons, List.find?_cons]
    by_cases h : (a.label == q.label)
    · simp [h]
    · simp only [h, Bool.false_eq_true, if_false, List.findIdx?_succ]
      cases hfi : t.findIdx? (fun x => x.label == q.label) with
      | none => rw [hfi] at ih; simpa using ih
      | some i => rw [hfi] at ih; simpa using ih

theorem upperPhase_eq_flags (validate : Nat → List F → List Bool → C → P → Bool)
    (log_domain_size : Nat) (coset_idx : List Bool)
    (cms : List (Labeled C)) (qs : List (Labeled (Query F P)))
    (l : List Bool)
    (h : upperFlags validate log_domain_size coset_idx cms qs = .ok l) (acc : Bool) :
    upperPhase validate log_domain_size coset_idx cms qs acc = .ok (acc && l.all id) := by
  induction qs generalizing l acc with
  | nil =>
    unfold upperFlags at h
    cases h
    simp [upperPhase]
  | cons q rest ih =>
    unfold upperFlags at h
    unfold upperPhase
    cases hs : upperStep validate log_domain_size coset_idx cms q with
    | ok b =>
      rw [hs] at h
      simp only [RResult.bind] at h ⊢
      cases hf : upperFlags validate log_domain_size coset_idx cms rest with
      | ok l2 =>
        rw [hf] at h
        simp only [RResult.map] at h
        cases h
        rw [ih l2 hf (acc && b)]
        simp [Bool.and_assoc]
      | err e => rw [hf] at h; simp [RResult.map] at h
      | panicked => rw [hf] at h; simp [RResult.map] at h
    | err e => rw [hs] at h; simp [RResult.bind] at h
    | panicked => rw [hs] at h; simp [RResult.bind] at h

theorem layerLoop_eq_scan (U : FriUtilsFns F)
    (validate : Nat → List F → List Bool → C → P → Bool)
    (collapsing_factor : Nat) (fri_challenges : List F)
    (ts : List ((Query F P × C) × List F)) (st stf : LayerState F)
    (ps : List (Bool × Bool))
    (h : layerScan U validate collapsing_factor fri_challenges ts st = .ok (stf, ps))
    (acc : Bool) :
    layerLoop U validate collapsing_factor fri_challenges ts st acc =
      .ok (stf, acc && ps.all (fun p => p.1 && p.2)) := by
  induction ts generalizing st ps acc with
  | nil =>
    unfold layerScan at h
    cases h
    simp [layerLoop]
  | cons t rest ih =>
    obtain ⟨⟨query, commitment⟩, chunk⟩ := t
    unfold layerScan at h
    unfold layerLoop
    cases hs : layerStep U validate collapsing_factor fri_challenges st query commitment chunk with
    | ok r =>
      rw [hs] at h
      simp only [RResult.bind] at h ⊢
      cases hsc : layerScan U validate collapsing_factor fri_challenges rest r.1 with
      | ok pr =>
        rw [hsc] at h
        simp only [RResult.map] at h
        cases h
        rw [ih r.1 pr.2 (by rw [hsc]) ((acc && r.2.1) && r.2.2)]
        simp [Bool.and_assoc]
      | err e => rw [hsc] at h; simp [RResult.map] at h
      | panicked => rw [hsc] at h; simp [RResult.map] at h
    | err e => rw [hs] at h; simp [RResult.bind] at h
    | panicked => rw [hs] at h; simp [RResult.bind] at h

theorem sumLoop_eq_polyEval (cs : List F) (x t acc : F) :
    sumLoop cs t x acc = acc + t * polyEval cs x := by
  induction cs generalizing t acc with
  | nil => simp [sumLoop, polyEval]
  | cons c rest ih =>
    unfold sumLoop polyEval
    rw [ih]
    ring

theorem polyEval_eq_sum (cs : List F) (x : F) :
    polyEval cs x = ∑ i ∈ Finset.range cs.length, cs.getD i 0 * x ^ i := by
  induction cs with
  | nil => simp [polyEval]
  | cons c rest ih =>
    rw [polyEval, ih, List.length_cons, Finset.sum_range_succ']
    simp only [List.getD_cons_succ, List.getD_cons_zero, pow_zero, mul_one, pow_succ]
    rw [Finset.mul_sum]
    ring_nf
    rw [add_comm]
    congr 1
    apply Finset.sum_congr rfl
    intro i _
    ring

theorem rustSlice_ok {α : Type} (l : List α) (a b : Nat) (h1 : a ≤ b) (h2 : b ≤ l.length) :
    rustSlice l a b = .ok ((l.drop a).take (b - a)) := by
  simp [rustSlice, h1, h2]

theorem upperPhase_err_of_missing (validate : Nat → List F → List Bool → C → P → Bool)
    (log_domain_size : Nat) (coset_idx : List Bool)
    (cms : List (Labeled C)) (qs : List (Labeled (Query F P)))
    (h : ∃ q ∈ qs, cms.find? (fun x => x.label == q.label) = none) (acc : Bool) :
    upperPhase validate log_domain_size coset_idx cms qs acc = .err .Unknown := by
  induction qs generalizing acc with
  | nil => simp at h
  | cons q rest ih =>
    unfold upperPhase
    rw [upperStep_eq_find]
    cases hf : cms.find? (fun x => x.label == q.label) with
    | none => simp [RResult.bind]
    | some cm =>
      simp only [RResult.bind]
      apply ih
      obtain ⟨q2, hmem, hq2⟩ := h
      rcases List.mem_cons.mp hmem with rfl | hmem2
      · rw [hq2] at hf; cases hf
      · exact ⟨q2, hmem2, hq2⟩

theorem take_length_zip {α γ : Type} (l : List α) (l3 : List γ) :
    (l.take l3.length).zip l3 = l.zip l3 := by
  induction l3 generalizing l with
  | nil => simp
  | cons c t ih =>
    cases l with
    | nil => simp
    | cons a ta => simpa using ih ta

theorem zip_zip_take {α β γ : Type} (l1 : List α) (l2 : List β) (l3 : List γ) :
    ((l1.take l3.length).zip (l2.take l3.length)).zip l3 = (l1.zip l2).zip l3 := by
  rw [List.zip_eq_zipWith (List.take l3.length l1) (List.take l3.length l2),
    ← List.zipWith_distrib_take, ← List.zip_eq_zipWith]
  exact take_length_zip (l1.zip l2) l3

end HelperLemmas

section Claims

variable {F C P : Type} [CommRing F] [DecidableEq F]

/-- Claim C2: whenever `verify_single_proof_round` returns `Ok`, the
returned boolean is the conjunction of one oracle-validation boolean per
upper-layer query, one oracle-validation and one round-consistency
boolean per subsequent layer, and the final consistency boolean; a failed
check only makes the flag false, it never aborts construction. -/
theorem claim_C2_flag_is_conjunction
    (U : FriUtilsFns F) (validate : Nat → List F → List Bool → C → P → Bool)
    (upper_layer_queries : List (Labeled (Query F P)))
    (upper_layer_commitments : List (Labeled C))
    (upper_layer_combiner : List (Labeled F) → RResult F)
    (fri_helper : DomainState)
    (queries : List (Query F P)) (commitments : List C)
    (final_coefficients : List F)
    (natural_first_element_index : List Bool)
    (fri_challenges : List F)
    (initial_domain_size collapsing_factor : Nat)
    (uf : List Bool) (values ch0 : List F) (stf : LayerState F)
    (ps : List (Bool × Bool)) (dfin : DomainState) (natfin : List Bool) (val : F)
    (h1 : upperFlags validate fri_helper.log_domain_size
        (U.getCosetIdx fri_helper natural_first_element_index)
        upper_layer_commitments upper_layer_queries = .ok uf)
    (h2 : combinerLoop upper_layer_combiner upper_layer_queries
        (U.getCombinerEvalPoints fri_helper
          (U.getCosetIdx fri_helper natural_first_element_index))
        (List.range (2 ^ collapsing_factor)) = .ok values)
    (h3 : rustSlice fri_challenges 0 (2 ^ collapsing_factor) = .ok ch0)
    (h4 : layerScan U validate collapsing_factor fri_challenges
        ((queries.zip commitments).zip
          ((chunksOf (2 ^ collapsing_factor) fri_challenges).drop 1))
        ⟨fri_helper, natural_first_element_index,
          U.cosetInterp fri_helper values
            (U.getCosetIdx fri_helper natural_first_element_index) ch0⟩ = .ok (stf, ps))
    (h5 : finalValue U collapsing_factor stf.d stf.natIdx final_coefficients =
        .ok (dfin, natfin, val)) :
    verify_single_proof_round U upper_layer_queries upper_layer_commitments
      upper_layer_combiner fri_helper queries commitments final_coefficients
      natural_first_element_index fri_challenges initial_domain_size
      collapsing_factor validate =
      .ok ((uf.all id && ps.all (fun p => p.1 && p.2)) && decide (stf.prev = val)) := by
  simp only [verify_single_proof_round, afterLayers]
  rw [upperPhase_eq_flags validate fri_helper.log_domain_size
    (U.getCosetIdx fri_helper natural_first_element_index)
    upper_layer_commitments upper_layer_queries uf h1 true]
  simp only [RResult.bind, Bool.true_and]
  rw [h2]
  simp only [RResult.bind]
  rw [h3]
  simp only [RResult.bind]
  rw [layerLoop_eq_scan U validate collapsing_factor fri_challenges _ _ stf ps h4 (uf.all id)]
  simp only [RResult.bind]
  rw [h5]

/-- Claim C2 witness: a fully concrete round on which every hypothesis is
discharged by evaluation. -/
theorem claim_C2_witness :
    verify_single_proof_round intUtils
      [⟨"a", ⟨[7, 8], ()⟩⟩] [⟨"a", (0 : Nat)⟩] sumCombiner ⟨3⟩
      [⟨[2, 9], ()⟩] [1] [5] [true, false, true] [10, 20, 30, 40] 8 1 acceptAllOracle =
      .ok (([true].all id && [(true, true)].all (fun p => p.1 && p.2)) &&
        decide ((4 : ℤ) = 5)) := by
  exact claim_C2_flag_is_conjunction intUtils acceptAllOracle
    [⟨"a", ⟨[7, 8], ()⟩⟩] [⟨"a", (0 : Nat)⟩] sumCombiner ⟨3⟩
    [⟨[2, 9], ()⟩] [1] [5] [true, false, true] [10, 20, 30, 40] 8 1
    [true] [7, 8] [10, 20] ⟨⟨2⟩, [false], 4⟩ [(true, true)] ⟨2⟩ [false] 5
    (by rfl) (by rfl) (by rfl) (by rfl) (by rfl)

/-- Claim C3: an upper-layer query whose label matches no upper-layer
commitment makes `verify_single_proof_round` fail with a construction-time
lookup error (`Err`), not a false boolean; when a label does match, the
commitment handed to oracle validation is the first one with an equal
label. -/
theorem claim_C3_label_lookup
    (U : FriUtilsFns F) (validate : Nat → List F → List Bool → C → P → Bool)
    (upper_layer_queries : List (Labeled (Query F P)))
    (upper_layer_commitments : List (Labeled C))
    (upper_layer_combiner : List (Labeled F) → RResult F)
    (fri_helper : DomainState)
    (queries : List (Query F P)) (commitments : List C)
    (final_coefficients : List F)
    (natural_first_element_index : List Bool)
    (fri_challenges : List F)
    (initial_domain_size collapsing_factor : Nat) :
    ((∃ q ∈ upper_layer_queries,
        upper_layer_commitments.find? (fun x => x.label == q.label) = none) →
      verify_single_proof_round U upper_layer_queries upper_layer_commitments
        upper_layer_combiner fri_helper queries commitments final_coefficients
        natural_first_element_index fri_challenges initial_domain_size
        collapsing_factor validate = .err .Unknown)
    ∧ (∀ q cm, upper_layer_commitments.find? (fun x => x.label == q.label) = some cm →
        upperStep validate fri_helper.log_domain_size
          (U.getCosetIdx fri_helper natural_first_element_index)
          upper_layer_commitments q =
          .ok (validate fri_helper.log_domain_size q.data.values
            (U.getCosetIdx fri_helper natural_first_element_index)
            cm.data q.data.proof)) := by
  constructor
  · intro h
    simp only [verify_single_proof_round, afterLayers]
    rw [upperPhase_err_of_missing validate fri_helper.log_domain_size
      (U.getCosetIdx fri_helper natural_first_element_index)
      upper_layer_commitments upper_layer_queries h true]
    simp [RResult.bind]
  · intro q cm hfind
    rw [upperStep_eq_find, hfind]

/-- Claim C3 witness: with one `"a"`-labelled query and no commitments the
round fails with the lookup error at construction time. -/
theorem claim_C3_witness :
    verify_single_proof_round intUtils [⟨"a", ⟨[], ()⟩⟩]
      ([] : List (Labeled Nat)) sumCombiner ⟨3⟩
      ([] : List (Query ℤ Unit)) [] [5] [true] [1, 2] 8 1 acceptAllOracle =
      .err .Unknown := by
  exact (claim_C3_label_lookup intUtils acceptAllOracle [⟨"a", ⟨[], ()⟩⟩] []
    sumCombiner ⟨3⟩ [] [] [5] [true] [1, 2] 8 1).1
    ⟨⟨"a", ⟨[], ()⟩⟩, List.mem_singleton.mpr rfl, rfl⟩

/-- Claim C9: the single-round algorithm is deterministic — two executions
on identical inputs return the same validity flag and compute the same
trace of folded values at every layer. -/
theorem claim_C9_determinism
    (U : FriUtilsFns F) (validate : Nat → List F → List Bool → C → P → Bool)
    (upper_layer_queries : List (Labeled (Query F P)))
    (upper_layer_commitments : List (Labeled C))
    (upper_layer_combiner : List (Labeled F) → RResult F)
    (fri_helper : DomainState)
    (queries : List (Query F P)) (commitments : List C)
    (final_coefficients : List F)
    (natural_first_element_index : List Bool)
    (fri_challenges : List F)
    (initial_domain_size collapsing_factor : Nat)
    (r1 r2 : RResult Bool) (t1 t2 : RResult (List F))
    (h1 : verify_single_proof_round U upper_layer_queries upper_layer_commitments
      upper_layer_combiner fri_helper queries commitments final_coefficients
      natural_first_element_index fri_challenges initial_domain_size
      collapsing_factor validate = r1)
    (h2 : verify_single_proof_round U upper_layer_queries upper_layer_commitments
      upper_layer_combiner fri_helper queries commitments final_coefficients
      natural_first_element_index fri_challenges initial_domain_size
      collapsing_factor validate = r2)
    (h3 : foldTrace U upper_layer_queries upper_layer_combiner fri_helper
      queries commitments natural_first_element_index fri_challenges
      collapsing_factor validate = t1)
    (h4 : foldTrace U upper_layer_queries upper_layer_combiner fri_helper
      queries commitments natural_first_element_index fri_challenges
      collapsing_factor validate = t2) :
    r1 = r2 ∧ t1 = t2 :=
  ⟨h1.symm.trans h2, h3.symm.trans h4⟩

/-- Claim C9 witness: both runs on a concrete input agree. -/
theorem claim_C9_witness :
    RResult.ok false = RResult.ok false ∧
      RResult.ok ([2, 4] : List ℤ) = RResult.ok [2, 4] := by
  exact claim_C9_determinism intUtils acceptAllOracle
    [⟨"a", ⟨[7, 8], ()⟩⟩] [⟨"a", (0 : Nat)⟩] sumCombiner ⟨3⟩
    [⟨[2, 9], ()⟩] [1] [5] [true, false, true] [10, 20, 30, 40] 8 1
    (.ok false) (.ok false) (.ok [2, 4]) (.ok [2, 4])
    (by rfl) (by rfl) (by rfl) (by rfl)

/-- Claim C4, evaluated against the code at a failing input: at a fold
step whose own challenge chunk is `[30, 40]`, the recomputed
`previous_layer_element` is the interpolation called with the whole
`fri_challenges` slice `[10, 20, 30, 40]` (the concrete interpolation
returns the challenge-list length, so the result `4` — not `2` — shows
which slice was passed): the chunk bound in the loop header is unused. -/
theorem claim_C4_full_challenges_passed :
    layerStep intUtils acceptAllOracle 1 [10, 20, 30, 40]
      ⟨⟨3⟩, [true, false, true], 0⟩ ⟨[7, 8], ()⟩ 0 [30, 40] =
      .ok (⟨⟨2⟩, [false], 4⟩, true, false) := by
  rfl

/-- Claim C6, evaluated against the code at a failing input: one fold step
from the 3-bit natural index `[true, false, true]` with collapsing factor 1
leaves the single bit `[false]` (the slice `[1..2]`), not the two high bits
`[false, true]` of length `3 - 1` that the claim requires. -/
theorem claim_C6_index_over_truncated :
    layerStep intUtils acceptAllOracle 1 [1, 2]
      ⟨⟨3⟩, [true, false, true], 0⟩ ⟨[6], ()⟩ 5 [] =
      .ok (⟨⟨2⟩, [false], 2⟩, true, false) := by
  rfl

/-- Claim C5 counterexample: one query and one commitment but no
subsequent challenge chunk (challenge count mismatching the round count):
the round returns an ordinary boolean result, not a fatal construction
error. -/
theorem claim_C5_counterexample :
    verify_single_proof_round intUtils [] ([] : List (Labeled Nat)) sumCombiner ⟨3⟩
      [⟨[7, 8], ()⟩] [0] [5] [true, false, true] [1, 2] 8 1 acceptAllOracle =
      .ok false := by
  rfl

/-- Claim C5 amended: a mismatch between the number of subsequent
challenge chunks and the number of per-layer queries is not detected; the
layer loop silently truncates to the available chunks — the round behaves
exactly as if `queries` and `commitments` had been cut down to the number
of subsequent chunks. -/
theorem claim_C5_amended_truncation
    (U : FriUtilsFns F) (validate : Nat → List F → List Bool → C → P → Bool)
    (upper_layer_queries : List (Labeled (Query F P)))
    (upper_layer_commitments : List (Labeled C))
    (upper_layer_combiner : List (Labeled F) → RResult F)
    (fri_helper : DomainState)
    (queries : List (Query F P)) (commitments : List C)
    (final_coefficients : List F)
    (natural_first_element_index : List Bool)
    (fri_challenges : List F)
    (initial_domain_size collapsing_factor : Nat) :
    verify_single_proof_round U upper_layer_queries upper_layer_commitments
      upper_layer_combiner fri_helper queries commitments final_coefficients
      natural_first_element_index fri_challenges initial_domain_size
      collapsing_factor validate =
      verify_single_proof_round U upper_layer_queries upper_layer_commitments
        upper_layer_combiner fri_helper
        (queries.take ((chunksOf (2 ^ collapsing_factor) fri_challenges).drop 1).length)
        (commitments.take ((chunksOf (2 ^ collapsing_factor) fri_challenges).drop 1).length)
        final_coefficients natural_first_element_index fri_challenges
        initial_domain_size collapsing_factor validate := by
  simp only [verify_single_proof_round, afterLayers]
  rw [zip_zip_take queries commitments ((chunksOf (2 ^ collapsing_factor) fri_challenges).drop 1)]

/-- Claim C7: with a single final coefficient the final check uses that
coefficient directly — no domain advance, no natural-index consumption and
no exponentiation (the returned state is untouched) — and the round with
`final_coefficients = [c]` returns exactly the same result as the round
with `final_coefficients = [c, 0]` (the same constant polynomial). -/
theorem claim_C7_single_coefficient
    (U : FriUtilsFns F) (validate : Nat → List F → List Bool → C → P → Bool)
    (upper_layer_queries : List (Labeled (Query F P)))
    (upper_layer_commitments : List (Labeled C))
    (upper_layer_combiner : List (Labeled F) → RResult F)
    (fri_helper : DomainState)
    (queries : List (Query F P)) (commitments : List C)
    (natural_first_element_index : List Bool)
    (fri_challenges : List F)
    (initial_domain_size collapsing_factor : Nat)
    (st : LayerState F) (fr : Bool)
    (h0 : afterLayers U validate upper_layer_queries upper_layer_commitments
      upper_layer_combiner fri_helper queries commitments
      natural_first_element_index fri_challenges collapsing_factor = .ok (st, fr))
    (h1 : collapsing_factor ≤ (st.d.next collapsing_factor).log_domain_size)
    (h2 : (st.d.next collapsing_factor).log_domain_size ≤ st.natIdx.length)
    (c : F) :
    finalValue U collapsing_factor st.d st.natIdx [c] = .ok (st.d, st.natIdx, c)
    ∧ verify_single_proof_round U upper_layer_queries upper_layer_commitments
        upper_layer_combiner fri_helper queries commitments [c]
        natural_first_element_index fri_challenges initial_domain_size
        collapsing_factor validate =
      verify_single_proof_round U upper_layer_queries upper_layer_commitments
        upper_layer_combiner fri_helper queries commitments [c, 0]
        natural_first_element_index fri_challenges initial_domain_size
        collapsing_factor validate := by
  have hA : finalValue U collapsing_factor st.d st.natIdx [c] = .ok (st.d, st.natIdx, c) := rfl
  have hB : finalValue U collapsing_factor st.d st.natIdx [c, 0] =
      .ok (st.d.next collapsing_factor,
        (st.natIdx.drop collapsing_factor).take
          ((st.d.next collapsing_factor).log_domain_size - collapsing_factor), c) := by
    simp only [finalValue, List.length_cons, List.length_nil]
    norm_num
    rw [rustSlice_ok st.natIdx collapsing_factor
      (st.d.next collapsing_factor).log_domain_size h1 h2]
    have hidx : rustIndex ([c, 0] : List F) 0 = .ok c := rfl
    simp only [RResult.bind, List.drop_succ_cons, List.drop_zero, hidx, sumLoop, mul_zero,
      add_zero]
  refine ⟨hA, ?_⟩
  simp only [verify_single_proof_round]
  rw [h0]
  simp only [RResult.bind]
  rw [hA, hB]

/-- Claim C7 witness: a concrete round on which `[5]` and `[5, 0]` final
coefficients produce identical results. -/
theorem claim_C7_witness :
    finalValue intUtils 1 ⟨3⟩ [true, false, true] [(5 : ℤ)] =
      .ok (⟨3⟩, [true, false, true], 5)
    ∧ verify_single_proof_round intUtils [] ([] : List (Labeled Nat)) sumCombiner ⟨3⟩
        ([] : List (Query ℤ Unit)) [] [5] [true, false, true] [1, 2] 8 1 acceptAllOracle =
      verify_single_proof_round intUtils [] [] sumCombiner ⟨3⟩
        [] [] [5, 0] [true, false, true] [1, 2] 8 1 acceptAllOracle := by
  exact claim_C7_single_coefficient intUtils acceptAllOracle [] [] sumCombiner ⟨3⟩
    [] [] [true, false, true] [1, 2] 8 1 ⟨⟨3⟩, [true, false, true], 2⟩ true
    (by rfl) (by decide) (by decide) 5

/-- Claim C8: with more than one final coefficient the final check
advances the domain once more, strips the natural index again, evaluates
the final polynomial at `x = bottom_layer_omega ^ (remaining index)` as
`∑ i, final_coefficients[i] * x^i`, and ANDs the equality of that value
with the last folded element into the validity flag. -/
theorem claim_C8_final_poly_eval
    (U : FriUtilsFns F) (validate : Nat → List F → List Bool → C → P → Bool)
    (upper_layer_queries : List (Labeled (Query F P)))
    (upper_layer_commitments : List (Labeled C))
    (upper_layer_combiner : List (Labeled F) → RResult F)
    (fri_helper : DomainState)
    (queries : List (Query F P)) (commitments : List C)
    (final_coefficients : List F)
    (natural_first_element_index : List Bool)
    (fri_challenges : List F)
    (initial_domain_size collapsing_factor : Nat)
    (st : LayerState F) (fr : Bool)
    (h0 : afterLayers U validate upper_layer_queries upper_layer_commitments
      upper_layer_combiner fri_helper queries commitments
      natural_first_element_index fri_challenges collapsing_factor = .ok (st, fr))
    (hlen : 1 < final_coefficients.length)
    (h1 : collapsing_factor ≤ (st.d.next collapsing_factor).log_domain_size)
    (h2 : (st.d.next collapsing_factor).log_domain_size ≤ st.natIdx.length) :
    finalValue U collapsing_factor st.d st.natIdx final_coefficients =
      .ok (st.d.next collapsing_factor,
        (st.natIdx.drop collapsing_factor).take
          ((st.d.next collapsing_factor).log_domain_size - collapsing_factor),
        ∑ i ∈ Finset.range final_coefficients.length,
          final_coefficients.getD i 0 *
            (U.bottomOmega (st.d.next collapsing_factor) ^
              bitsToNat ((st.natIdx.drop collapsing_factor).take
                ((st.d.next collapsing_factor).log_domain_size - collapsing_factor))) ^ i)
    ∧ verify_single_proof_round U upper_layer_queries upper_layer_commitments
        upper_layer_combiner fri_helper queries commitments final_coefficients
        natural_first_element_index fri_challenges initial_domain_size
        collapsing_factor validate =
      .ok (fr && decide (st.prev =
        ∑ i ∈ Finset.range final_coefficients.length,
          final_coefficients.getD i 0 *
            (U.bottomOmega (st.d.next collapsing_factor) ^
              bitsToNat ((st.natIdx.drop collapsing_factor).take
                ((st.d.next collapsing_factor).log_domain_size - collapsing_factor))) ^ i)) := by
  cases final_coefficients with
  | nil => simp at hlen
  | cons c0 rest =>
    cases rest with
    | nil => simp at hlen
    | cons c1 rest2 =>
      have hfv : finalValue U collapsing_factor st.d st.natIdx (c0 :: c1 :: rest2) =
          .ok (st.d.next collapsing_factor,
            (st.natIdx.drop collapsing_factor).take
              ((st.d.next collapsing_factor).log_domain_size - collapsing_factor),
            ∑ i ∈ Finset.range (c0 :: c1 :: rest2).length,
              (c0 :: c1 :: rest2).getD i 0 *
                (U.bottomOmega (st.d.next collapsing_factor) ^
                  bitsToNat ((st.natIdx.drop collapsing_factor).take
                    ((st.d.next collapsing_factor).log_domain_size - collapsing_factor))) ^ i) := by
        simp only [finalValue, List.length_cons]
        norm_num
        rw [rustSlice_ok st.natIdx collapsing_factor
          (st.d.next collapsing_factor).log_domain_size h1 h2]
        have hidx : rustIndex (c0 :: c1 :: rest2) 0 = .ok c0 := rfl
        simp only [RResult.bind, hidx, List.drop_succ_cons, List.drop_zero]
        rw [sumLoop_eq_polyEval]
        have hpe : c0 + (U.bottomOmega (st.d.next collapsing_factor) ^
              bitsToNat ((st.natIdx.drop collapsing_factor).take
                ((st.d.next collapsing_factor).log_domain_size - collapsing_factor))) *
            polyEval (c1 :: rest2)
              (U.bottomOmega (st.d.next collapsing_factor) ^
                bitsToNat ((st.natIdx.drop collapsing_factor).take
                  ((st.d.next collapsing_factor).log_domain_size - collapsing_factor))) =
            polyEval (c0 :: c1 :: rest2)
              (U.bottomOmega (st.d.next collapsing_factor) ^
                bitsToNat ((st.natIdx.drop collapsing_factor).take
                  ((st.d.next collapsing_factor).log_domain_size - collapsing_factor))) := rfl
        rw [hpe, polyEval_eq_sum]
        simp only [List.length_cons, List.getD_eq_getElem?_getD]
      refine ⟨hfv, ?_⟩
      simp only [verify_single_proof_round]
      rw [h0]
      simp only [RResult.bind]
      rw [hfv]

/-- Claim C8 witness: the concrete final check with coefficients
`[1, 2, 3]` evaluates the polynomial and rejects a non-matching folded
value. -/
theorem claim_C8_witness :
    verify_single_proof_round intUtils [] ([] : List (Labeled Nat)) sumCombiner ⟨3⟩
      ([] : List (Query ℤ Unit)) [] [1, 2, 3] [true, false, true] [1, 2] 8 1
      acceptAllOracle = .ok false := by
  have h := (claim_C8_final_poly_eval intUtils acceptAllOracle [] [] sumCombiner ⟨3⟩
    [] [] [1, 2, 3] [true, false, true] [1, 2] 8 1
    ⟨⟨3⟩, [true, false, true], 2⟩ true (by rfl) (by norm_num) (by decide) (by decide)).2
  rw [h]
  norm_num [Finset.sum_range_succ, bitsToNat, intUtils]

/-- Claim C10 counterexample: a call with empty `final_coefficients` whose
upper-layer label lookup fails returns the lookup `Err` — it does not
reach the assertion, so "every call with empty final coefficients fails
with a runtime assertion failure" is false as stated. -/
theorem claim_C10_counterexample :
    verify_single_proof_round intUtils [⟨"a", ⟨[], ()⟩⟩] ([] : List (Labeled Nat))
      sumCombiner ⟨3⟩ ([] : List (Query ℤ Unit)) [] [] [true] [1, 2] 8 1
      acceptAllOracle = .err .Unknown := by
  rfl

/-- Claim C10 amended: when the phases before the final check succeed,
empty `final_coefficients` makes the round panic on the assertion; when
`final_coefficients` is non-empty, indexing `final_coefficients[0]` is in
bounds and (provided the extra natural-index slice of the multi-coefficient
path is in range) the round returns an ordinary boolean — the assertion
never fires. -/
theorem claim_C10_assert_nonempty
    (U : FriUtilsFns F) (validate : Nat → List F → List Bool → C → P → Bool)
    (upper_layer_queries : List (Labeled (Query F P)))
    (upper_layer_commitments : List (Labeled C))
    (upper_layer_combiner : List (Labeled F) → RResult F)
    (fri_helper : DomainState)
    (queries : List (Query F P)) (commitments : List C)
    (final_coefficients : List F)
    (natural_first_element_index : List Bool)
    (fri_challenges : List F)
    (initial_domain_size collapsing_factor : Nat)
    (st : LayerState F) (fr : Bool)
    (h0 : afterLayers U validate upper_layer_queries upper_layer_commitments
      upper_layer_combiner fri_helper queries commitments
      natural_first_element_index fri_challenges collapsing_factor = .ok (st, fr)) :
    (final_coefficients = [] →
      verify_single_proof_round U upper_layer_queries upper_layer_commitments
        upper_layer_combiner fri_helper queries commitments final_coefficients
        natural_first_element_index fri_challenges initial_domain_size
        collapsing_factor validate = .panicked)
    ∧ (final_coefficients ≠ [] → ∃ v, rustIndex final_coefficients 0 = .ok v)
    ∧ (final_coefficients ≠ [] →
        (final_coefficients.length = 1 ∨
          (collapsing_factor ≤ (st.d.next collapsing_factor).log_domain_size ∧
            (st.d.next collapsing_factor).log_domain_size ≤ st.natIdx.length)) →
        ∃ b, verify_single_proof_round U upper_layer_queries upper_layer_commitments
          upper_layer_combiner fri_helper queries commitments final_coefficients
          natural_first_element_index fri_challenges initial_domain_size
          collapsing_factor validate = .ok b) := by
  refine ⟨?_, ?_, ?_⟩
  · rintro rfl
    simp only [verify_single_proof_round]
    rw [h0]
    simp only [RResult.bind]
    rfl
  · intro hne
    cases final_coefficients with
    | nil => exact absurd rfl hne
    | cons c0 rest => exact ⟨c0, rfl⟩
  · intro hne hcase
    cases final_coefficients with
    | nil => exact absurd rfl hne
    | cons c0 rest =>
      cases rest with
      | nil =>
        refine ⟨fr && decide (st.prev = c0), ?_⟩
        simp only [verify_single_proof_round]
        rw [h0]
        simp only [RResult.bind]
        rfl
      | cons c1 rest2 =>
        have hrange : collapsing_factor ≤ (st.d.next collapsing_factor).log_domain_size ∧
            (st.d.next collapsing_factor).log_domain_size ≤ st.natIdx.length := by
          rcases hcase with hlen1 | hr
          · simp at hlen1
          · exact hr
        refine ⟨fr && decide (st.prev =
          sumLoop (c1 :: rest2)
            (U.bottomOmega (st.d.next collapsing_factor) ^
              bitsToNat ((st.natIdx.drop collapsing_factor).take
                ((st.d.next collapsing_factor).log_domain_size - collapsing_factor)))
            (U.bottomOmega (st.d.next collapsing_factor) ^
              bitsToNat ((st.natIdx.drop collapsing_factor).take
                ((st.d.next collapsing_factor).log_domain_size - collapsing_factor)))
            c0), ?_⟩
        simp only [verify_single_proof_round]
        rw [h0]
        simp only [RResult.bind, finalValue, List.length_cons]
        norm_num
        rw [rustSlice_ok st.natIdx collapsing_factor
          (st.d.next collapsing_factor).log_domain_size hrange.1 hrange.2]
        have hidx : rustIndex (c0 :: c1 :: rest2) 0 = .ok c0 := rfl
        simp only [RResult.bind, hidx, List.drop_succ_cons, List.drop_zero]

/-- Claim C10 witness: on a concrete round whose earlier phases succeed,
empty final coefficients panic and the non-empty list `[5]` yields an
ordinary boolean. -/
theorem claim_C10_witness :
    verify_single_proof_round intUtils [] ([] : List (Labeled Nat)) sumCombiner ⟨3⟩
      ([] : List (Query ℤ Unit)) [] [] [true, false, true] [1, 2] 8 1
      acceptAllOracle = .panicked
    ∧ ∃ b, verify_single_proof_round intUtils [] ([] : List (Labeled Nat)) sumCombiner ⟨3⟩
      ([] : List (Query ℤ Unit)) [] [5] [true, false, true] [1, 2] 8 1
      acceptAllOracle = .ok b := by
  constructor
  · exact (claim_C10_assert_nonempty intUtils acceptAllOracle [] [] sumCombiner ⟨3⟩
      [] [] [] [true, false, true] [1, 2] 8 1
      ⟨⟨3⟩, [true, false, true], 2⟩ true (by rfl)).1 rfl
  · exact (claim_C10_assert_nonempty intUtils acceptAllOracle [] [] sumCombiner ⟨3⟩
      [] [] [5] [true, false, true] [1, 2] 8 1
      ⟨⟨3⟩, [true, false, true], 2⟩ true (by rfl)).2.2 (by simp) (Or.inl rfl)

/-- Claim C1, evaluated against the code: `verify_proof` as present in the
source returns the constant-true boolean for every input — in particular,
when the number of supplied rounds cannot match any configured round count
and `final_coefficients` exceeds any final-degree bound, it neither fails
at construction time nor runs the single-round algorithm nor ANDs any
per-round flags. -/
theorem claim_C1_stub_returns_true
    (upper_layer_combiner : List (Labeled F) → RResult F)
    (upper_layer_commitments : List (Labeled C))
    (commitments : List C) (final_coefficients : List F)
    (fri_challenges : List F)
    (query_rounds_data : List (FriSingleQueryRoundData F C P))
    (validate : Nat → List F → List Bool → C → P → Bool) :
    verify_proof upper_layer_combiner upper_layer_commitments commitments
      final_coefficients fri_challenges query_rounds_data validate = .ok true := by
  rfl

end Claims

end Redshift
